import Mathlib

/-!
Verification of the log-line interval analyzer.

This file is a shallow embedding of the core of the repository:
the interval analyzer and duration formatter (`src/analyzer.rs`),
the log parser with its two timestamp-extraction modes (`src/parser.rs`),
and the built-in timestamp format catalog (`src/timestamp_formats.rs`).

Machine integers (`i64` durations, timestamps) are modelled as `Int`;
`chrono::Duration` is modelled by its total number of milliseconds, and
`chrono::NaiveDateTime` by its number of milliseconds since the Unix epoch.
Rust's `Result` is modelled by `Except String`, `Option` by `Option`.

The `regex` and `chrono` crates are external dependencies of the repository;
the subsets of their behavior that the core exercises (leftmost-first regex
matching with one capture group, and `NaiveDateTime::parse_from_str` over the
strftime specifiers used by the catalog) are modelled here from their
documented semantics.
-/

namespace LogLine

/-! ## Data model (`src/parser.rs`, `src/analyzer.rs`) -/

/-- `chrono::Duration`, modelled by its total number of milliseconds.
`num_seconds` truncates toward zero, `num_milliseconds` is the value itself. -/
abbrev Duration := Int

/-- `Duration::num_seconds`: the total number of whole seconds, truncated
toward zero. -/
def Duration.num_seconds (d : Duration) : Int := Int.tdiv d 1000

/-- `Duration::num_milliseconds`: the total number of milliseconds. -/
def Duration.num_milliseconds (d : Duration) : Int := d

/-- `LogMatch` from `src/parser.rs`: a matched pattern string together with
the extracted timestamp (milliseconds since the Unix epoch). -/
structure LogMatch where
  pattern : String
  timestamp : Int
deriving DecidableEq, Repr

instance : Inhabited LogMatch := ⟨⟨"", 0⟩⟩

/-- `Interval` from `src/analyzer.rs`. -/
structure Interval where
  from_pattern : String
  to_pattern : String
  duration : Duration
deriving DecidableEq, Repr

instance : Inhabited Interval := ⟨⟨"", "", 0⟩⟩

/-! ## Regular expressions

A model of the subset of the `regex` crate that the repository uses:
character classes, counted repetition, alternation, optional groups, one
capture group, and word boundaries, with the crate's documented
leftmost-first (Perl-like) match semantics. -/

/-- `\w` of the `regex` crate, restricted to ASCII (all inputs here are
ASCII): letters, digits and underscore. -/
def isWordChar (c : Char) : Bool := c.isAlphanum || decide (c = '_')

/-- Longest run of characters satisfying `p` at the front of the list. -/
def countRun (p : Char → Bool) : List Char → Nat
  | [] => 0
  | c :: cs => if p c then countRun p cs + 1 else 0

/-- Greedily take at most `w` leading decimal digits. -/
def takeDigits : Nat → List Char → List Char × List Char
  | _, [] => ([], [])
  | 0, cs => ([], cs)
  | w + 1, c :: cs =>
    if c.isDigit then
      let r := takeDigits w cs
      (c :: r.1, r.2)
    else ([], c :: cs)

/-- Numeric value of a list of decimal digits. -/
def digitsVal (ds : List Char) : Nat := ds.foldl (fun a c => a * 10 + (c.toNat - 48)) 0

/-- Regex abstract syntax.  Unbounded and counted repetition is only needed
on single-character classes in this repository, so `repCls` repeats a
character predicate. -/
inductive RE where
  | eps
  | cls (p : Char → Bool)
  | seq (a b : RE)
  | alt (a b : RE)
  | opt (a : RE)
  | repCls (p : Char → Bool) (mn : Nat) (mx : Option Nat)
  | group (a : RE)
  | wordB

/-- Span of capture group 1: start and end offsets into the haystack. -/
abbrev Caps := Option (Nat × Nat)

/-- Backtracking matcher in continuation-passing style, reproducing
leftmost-first preference: alternation prefers its left branch, `?` and
repetition are greedy.  `i` is the current offset, `g` the group-1 span
captured so far, and `k` the continuation; the final answer is the match
end offset together with the group-1 span. -/
def RE.mrun (s : List Char) :
    RE → Nat → Caps → (Nat → Caps → Option (Nat × Caps)) → Option (Nat × Caps)
  | .eps, i, g, k => k i g
  | .cls p, i, g, k =>
    match s[i]? with
    | some c => if p c then k (i + 1) g else none
    | none => none
  | .seq a b, i, g, k => a.mrun s i g (fun j g' => b.mrun s j g' k)
  | .alt a b, i, g, k => (a.mrun s i g k) <|> (b.mrun s i g k)
  | .opt a, i, g, k => (a.mrun s i g k) <|> k i g
  | .repCls p mn mx, i, g, k =>
    let avail := countRun p (s.drop i)
    let hi := match mx with | some m => min avail m | none => avail
    if hi < mn then none
    else (List.range (hi + 1 - mn)).findSome? (fun j => k (i + (hi - j)) g)
  | .group a, i, g, k => a.mrun s i g (fun j _ => k j (some (i, j)))
  | .wordB, i, g, k =>
    let before := match i with
      | 0 => false
      | Nat.succ i' => (match s[i']? with | some c => isWordChar c | none => false)
    let after := match s[i]? with | some c => isWordChar c | none => false
    if before != after then k i g else none

/-- `Regex::captures`: the leftmost match.  Start offsets are tried left to
right; the result is the whole-match span together with the group-1 span. -/
def RE.captures (re : RE) (line : String) : Option (Nat × Nat × Caps) :=
  let cs := line.toList
  (List.range (cs.length + 1)).findSome? (fun st =>
    match re.mrun cs st none (fun j g => some (j, g)) with
    | some r => some (st, r.1, r.2)
    | none => none)

/-- `Regex::is_match`. -/
def RE.isMatch (re : RE) (line : String) : Bool := (re.captures line).isSome

/-- `Captures::get(1)`: the text of capture group 1, when that group
participated in the match. -/
def group1String (line : String) (r : Nat × Nat × Caps) : Option String :=
  match r.2.2 with
  | some (a, b) => some (String.mk ((line.toList.drop a).take (b - a)))
  | none => none

/-! ## Regex compilation (`Regex::new`)

A recursive-descent reading of the regex subset that appears in the
repository's pattern strings; any construct outside the subset fails to
compile, like an invalid pattern would. -/

/-- Items of a character class `[...]`, as closed ranges; a trailing `-`
is a literal, as in `[+-]`. -/
def clsItems : List Char → Option (List (Char × Char) × List Char)
  | [] => none
  | ']' :: rest => some ([], rest)
  | c :: '-' :: d :: rest =>
    if d = ']' then some ([(c, c), ('-', '-')], rest)
    else
      match clsItems rest with
      | some (rs, rest') => some ((c, d) :: rs, rest')
      | none => none
  | c :: rest =>
    match clsItems rest with
    | some (rs, rest') => some ((c, c) :: rs, rest')
    | none => none

/-- Escaped atoms: predefined classes, word boundary, or a literal
punctuation character. -/
def escAtom (c : Char) : Option RE :=
  if c = 'd' then some (.cls Char.isDigit)
  else if c = 's' then some (.cls Char.isWhitespace)
  else if c = 'w' then some (.cls isWordChar)
  else if c = 'b' then some .wordB
  else if c.isAlphanum then none
  else some (.cls (fun x => decide (x = c)))

/-- Postfix operators `?`, `+`, `{n}`, `{n,m}` applied to a parsed atom. -/
def applyPost (a : RE) (cs : List Char) : Option (RE × List Char) :=
  match cs with
  | '?' :: rest => some (.opt a, rest)
  | '+' :: rest =>
    match a with
    | .cls p => some (.repCls p 1 none, rest)
    | _ => none
  | '{' :: rest =>
    let r := takeDigits rest.length rest
    if r.1.isEmpty then none
    else
      let n := digitsVal r.1
      match r.2 with
      | '}' :: rest' =>
        match a with
        | .cls p => some (.repCls p n (some n), rest')
        | _ => none
      | ',' :: rest' =>
        let r2 := takeDigits rest'.length rest'
        if r2.1.isEmpty then none
        else
          match r2.2 with
          | '}' :: rest'' =>
            match a with
            | .cls p => some (.repCls p n (some (digitsVal r2.1)), rest'')
            | _ => none
          | _ => none
      | _ => none
  | _ => some (a, cs)

mutual

/-- Alternation level of the regex grammar. -/
def reAlt : Nat → List Char → Option (RE × List Char)
  | 0, _ => none
  | fuel + 1, cs =>
    match reSeq fuel cs with
    | none => none
    | some (a, rest) =>
      match rest with
      | '|' :: rest' =>
        match reAlt fuel rest' with
        | some (b, rest'') => some (.alt a b, rest'')
        | none => none
      | _ => some (a, rest)

/-- Concatenation level of the regex grammar. -/
def reSeq : Nat → List Char → Option (RE × List Char)
  | 0, _ => none
  | fuel + 1, cs =>
    match cs with
    | [] => some (.eps, [])
    | ')' :: _ => some (.eps, cs)
    | '|' :: _ => some (.eps, cs)
    | _ =>
      match reAtomPost fuel cs with
      | none => none
      | some (a, rest) =>
        match reSeq fuel rest with
        | some (b, rest') => some (.seq a b, rest')
        | none => none

/-- One atom together with its postfix operators. -/
def reAtomPost : Nat → List Char → Option (RE × List Char)
  | 0, _ => none
  | fuel + 1, cs =>
    match reAtom fuel cs with
    | none => none
    | some (a, rest) => applyPost a rest

/-- Atom level: groups, classes, escapes, `.`, and literal characters. -/
def reAtom : Nat → List Char → Option (RE × List Char)
  | 0, _ => none
  | fuel + 1, cs =>
    match cs with
    | '(' :: '?' :: ':' :: rest =>
      match reAlt fuel rest with
      | some (a, ')' :: rest') => some (a, rest')
      | _ => none
    | '(' :: rest =>
      match reAlt fuel rest with
      | some (a, ')' :: rest') => some (.group a, rest')
      | _ => none
    | '[' :: rest =>
      match clsItems rest with
      | some (rs, rest') =>
        some (.cls (fun c => rs.any (fun r => decide (r.1 ≤ c) && decide (c ≤ r.2))), rest')
      | none => none
    | '\\' :: e :: rest =>
      match escAtom e with
      | some a => some (a, rest)
      | none => none
    | '.' :: rest => some (.cls (fun c => decide (c ≠ '\n')), rest)
    | [] => none
    | c :: rest =>
      if c = '?' ∨ c = '+' ∨ c = '*' ∨ c = '{' ∨ c = '}' ∨ c = ')' ∨ c = '|' ∨ c = ']' then none
      else some (.cls (fun x => decide (x = c)), rest)

end

/-- `Regex::new`: compile a pattern string; `none` is a compilation error. -/
def compileRegex (pat : String) : Option RE :=
  match reAlt (4 * (pat.length + 2)) pat.toList with
  | some (a, []) => some a
  | _ => none

/-! ## Timestamp parsing (`chrono::NaiveDateTime::parse_from_str`)

A model of chrono's strftime parsing for the specifiers the repository
uses: `%Y %m %d %H %I %M %S %b %p %z %:z %s %.f %.3f %3f`, literals and
whitespace.  Parsing follows chrono's documented rules: numeric fields
consume greedily up to their maximum width (4 for `%Y`, 2 for the other
date/time fields, unbounded for `%s`), whitespace in the format skips any
amount of input whitespace, `%.f` and `%.3f` consume an optional
dot-prefixed fraction, `%3f` consumes exactly three digits, and the whole
input must be consumed.  The parsed fields are then resolved into a naive
datetime: a complete year/month/day/hour/minute gives a calendar datetime
(second and fraction default to zero), otherwise a `%s` timestamp is used
directly; a parsed UTC offset is consumed but never shifts the naive value.
A year-less parse (such as syslog `%b %d %H:%M:%S`) has no complete date
and no timestamp, so resolution fails. -/

/-- Items of a chrono strftime format string. -/
inductive FmtItem where
  | lit (c : Char)
  | space
  | year | month | day | hour | hour12 | minute | second
  | monthAbbr
  | ampm
  | tzColon
  | tz
  | nanoDot
  | nano3Dot
  | nano3NoDot
  | timestampSec
deriving DecidableEq, Repr

/-- `StrftimeItems`: lex a format string; `none` is an invalid format. -/
def strftimeItems : List Char → Option (List FmtItem)
  | [] => some []
  | '%' :: 'Y' :: r => (strftimeItems r).map (.year :: ·)
  | '%' :: 'm' :: r => (strftimeItems r).map (.month :: ·)
  | '%' :: 'd' :: r => (strftimeItems r).map (.day :: ·)
  | '%' :: 'H' :: r => (strftimeItems r).map (.hour :: ·)
  | '%' :: 'I' :: r => (strftimeItems r).map (.hour12 :: ·)
  | '%' :: 'M' :: r => (strftimeItems r).map (.minute :: ·)
  | '%' :: 'S' :: r => (strftimeItems r).map (.second :: ·)
  | '%' :: 'b' :: r => (strftimeItems r).map (.monthAbbr :: ·)
  | '%' :: 'p' :: r => (strftimeItems r).map (.ampm :: ·)
  | '%' :: 's' :: r => (strftimeItems r).map (.timestampSec :: ·)
  | '%' :: ':' :: 'z' :: r => (strftimeItems r).map (.tzColon :: ·)
  | '%' :: 'z' :: r => (strftimeItems r).map (.tz :: ·)
  | '%' :: '.' :: '3' :: 'f' :: r => (strftimeItems r).map (.nano3Dot :: ·)
  | '%' :: '.' :: 'f' :: r => (strftimeItems r).map (.nanoDot :: ·)
  | '%' :: '3' :: 'f' :: r => (strftimeItems r).map (.nano3NoDot :: ·)
  | '%' :: _ => none
  | c :: r => (strftimeItems r).map ((if c.isWhitespace then .space else .lit c) :: ·)

/-- Case-insensitive three-letter month abbreviation, as chrono scans it. -/
def monthFromAbbr (a b c : Char) : Option Nat :=
  let s := String.mk [a.toLower, b.toLower, c.toLower]
  if s = "jan" then some 1
  else if s = "feb" then some 2
  else if s = "mar" then some 3
  else if s = "apr" then some 4
  else if s = "may" then some 5
  else if s = "jun" then some 6
  else if s = "jul" then some 7
  else if s = "aug" then some 8
  else if s = "sep" then some 9
  else if s = "oct" then some 10
  else if s = "nov" then some 11
  else if s = "dec" then some 12
  else none

/-- Consume a UTC offset `±HH:MM` or `±HHMM` (leading whitespace skipped,
colon optional when parsing, minutes below 60), as chrono scans `%z`/`%:z`.
The offset value is not returned: naive-datetime resolution ignores it. -/
def scanOffset (cs : List Char) : Option (List Char) :=
  match cs.dropWhile Char.isWhitespace with
  | sgn :: h1 :: h2 :: rest =>
    if (sgn = '+' ∨ sgn = '-') ∧ h1.isDigit ∧ h2.isDigit then
      match rest with
      | ':' :: m1 :: m2 :: rest' =>
        if m1.isDigit ∧ m2.isDigit ∧ digitsVal [m1, m2] < 60 then some rest' else none
      | m1 :: m2 :: rest' =>
        if m1.isDigit ∧ m2.isDigit ∧ digitsVal [m1, m2] < 60 then some rest' else none
      | _ => none
    else none
  | _ => none

/-- Nanosecond value of a dot-fraction digit string (first nine digits,
scaled), as chrono scans fractions. -/
def nanoVal (ds : List Char) : Nat :=
  digitsVal (ds.take 9) * 10 ^ (9 - min ds.length 9)

/-- chrono's `Parsed`: the fields collected while parsing. -/
structure Parsed where
  year : Option Int := none
  month : Option Nat := none
  day : Option Nat := none
  hour : Option Nat := none
  hour12 : Option Nat := none
  pm : Option Bool := none
  minute : Option Nat := none
  second : Option Nat := none
  nanosecond : Option Nat := none
  timestamp : Option Int := none
deriving Repr

/-- Run the format items over the input, collecting `Parsed` fields;
trailing input is an error (chrono's `TOO_LONG`). -/
def runItems : List FmtItem → List Char → Parsed → Option Parsed
  | [], cs, p => if cs.isEmpty then some p else none
  | it :: its, cs, p =>
    match it with
    | .lit c =>
      match cs with
      | c' :: r => if c' = c then runItems its r p else none
      | [] => none
    | .space => runItems its (cs.dropWhile Char.isWhitespace) p
    | .year =>
      let r := takeDigits 4 cs
      if r.1.isEmpty then none
      else runItems its r.2 { p with year := some (Int.ofNat (digitsVal r.1)) }
    | .month =>
      let r := takeDigits 2 cs
      if r.1.isEmpty then none else runItems its r.2 { p with month := some (digitsVal r.1) }
    | .day =>
      let r := takeDigits 2 cs
      if r.1.isEmpty then none else runItems its r.2 { p with day := some (digitsVal r.1) }
    | .hour =>
      let r := takeDigits 2 cs
      if r.1.isEmpty then none else runItems its r.2 { p with hour := some (digitsVal r.1) }
    | .hour12 =>
      let r := takeDigits 2 cs
      if r.1.isEmpty then none
      else
        let v := digitsVal r.1
        if 1 ≤ v ∧ v ≤ 12 then runItems its r.2 { p with hour12 := some v } else none
    | .minute =>
      let r := takeDigits 2 cs
      if r.1.isEmpty then none else runItems its r.2 { p with minute := some (digitsVal r.1) }
    | .second =>
      let r := takeDigits 2 cs
      if r.1.isEmpty then none else runItems its r.2 { p with second := some (digitsVal r.1) }
    | .monthAbbr =>
      match cs with
      | a :: b :: c :: r =>
        match monthFromAbbr a b c with
        | some m => runItems its r { p with month := some m }
        | none => none
      | _ => none
    | .ampm =>
      match cs with
      | a :: b :: r =>
        if b.toLower = 'm' then
          if a.toLower = 'a' then runItems its r { p with pm := some false }
          else if a.toLower = 'p' then runItems its r { p with pm := some true }
          else none
        else none
      | _ => none
    | .tzColon | .tz =>
      match scanOffset cs with
      | some r => runItems its r p
      | none => none
    | .nanoDot | .nano3Dot =>
      match cs with
      | '.' :: r =>
        let d := takeDigits r.length r
        if d.1.isEmpty then none
        else runItems its d.2 { p with nanosecond := some (nanoVal d.1) }
      | _ => runItems its cs p
    | .nano3NoDot =>
      let r := takeDigits 3 cs
      if r.1.length = 3 then
        runItems its r.2 { p with nanosecond := some (digitsVal r.1 * 1000000) }
      else none
    | .timestampSec =>
      match cs with
      | '-' :: r =>
        let d := takeDigits r.length r
        if d.1.isEmpty then none
        else runItems its d.2 { p with timestamp := some (-(Int.ofNat (digitsVal d.1))) }
      | _ =>
        let d := takeDigits cs.length cs
        if d.1.isEmpty then none
        else runItems its d.2 { p with timestamp := some (Int.ofNat (digitsVal d.1)) }

/-- Proleptic Gregorian leap year. -/
def isLeap (y : Int) : Bool := (y % 4 == 0 && y % 100 != 0) || y % 400 == 0

/-- Days in a month of the proleptic Gregorian calendar. -/
def daysInMonth (y : Int) (m : Nat) : Nat :=
  if m = 2 then (if isLeap y then 29 else 28)
  else if m = 4 ∨ m = 6 ∨ m = 9 ∨ m = 11 then 30
  else 31

/-- Days since 1970-01-01 of a proleptic Gregorian date (the standard
civil-from-days correspondence). -/
def daysFromCivil (y : Int) (m d : Nat) : Int :=
  let y' : Int := if m ≤ 2 then y - 1 else y
  let era : Int := Int.fdiv y' 400
  let yoe : Int := y' - era * 400
  let mp : Int := (Int.ofNat m + 9) % 12
  let doy : Int := (153 * mp + 2) / 5 + Int.ofNat d - 1
  let doe : Int := yoe * 365 + yoe / 4 - yoe / 100 + doy
  era * 146097 + doe - 719468

/-- Smallest epoch second representable by `NaiveDateTime`
(`-262144-01-01T00:00:00`). -/
def minDateTimeSec : Int := daysFromCivil (-262144) 1 1 * 86400

/-- Largest epoch second representable by `NaiveDateTime`
(`262143-12-31T23:59:59`). -/
def maxDateTimeSec : Int := daysFromCivil 262143 12 31 * 86400 + 86399

/-- Resolve the hour-of-day: either a 24-hour field, or a 12-hour field
combined with an AM/PM marker. -/
def resolvedHour (p : Parsed) : Option Nat :=
  match p.hour with
  | some h => some h
  | none =>
    match p.hour12, p.pm with
    | some h12, some pm => some (h12 % 12 + if pm then 12 else 0)
    | _, _ => none

/-- chrono's `Parsed::to_naive_datetime_with_offset` at offset zero, to
milliseconds since the epoch: a complete calendar date and time wins;
otherwise a `%s` timestamp (within the representable range) is used;
otherwise resolution fails (`NOT_ENOUGH`).  Leap-second handling is not
modelled: no input here carries a second field of 60. -/
def toNaiveMs (p : Parsed) : Option Int :=
  match p.year, p.month, p.day, resolvedHour p, p.minute with
  | some y, some mo, some d, some h, some mi =>
    let sec := p.second.getD 0
    let ns := p.nanosecond.getD 0
    if 1 ≤ mo ∧ mo ≤ 12 ∧ 1 ≤ d ∧ d ≤ daysInMonth y mo ∧ h < 24 ∧ mi < 60 ∧ sec < 60
        ∧ -262144 ≤ y ∧ y ≤ 262143 then
      some ((daysFromCivil y mo d * 86400 + ((h : Int) * 3600 + (mi : Int) * 60 + (sec : Int))) * 1000
        + (ns / 1000000 : Nat))
    else none
  | _, _, _, _, _ =>
    match p.timestamp with
    | some ts =>
      if minDateTimeSec ≤ ts ∧ ts ≤ maxDateTimeSec then
        some (ts * 1000 + ((p.nanosecond.getD 0) / 1000000 : Nat))
      else none
    | none => none

/-- `NaiveDateTime::parse_from_str input fmt`, to milliseconds since the
epoch; `none` is a parse error. -/
def chronoParse (fmt input : String) : Option Int :=
  match strftimeItems fmt.toList with
  | some items =>
    match runItems items input.toList {} with
    | some p => toNaiveMs p
    | none => none
  | none => none

/-! ## Built-in timestamp format catalog (`src/timestamp_formats.rs`)

The regex strings are the source's literals; `\x7b`/`\x7d` denote the
brace characters of counted repetitions. -/

/-- `TimestampFormat` from `src/timestamp_formats.rs`. -/
structure TimestampFormat where
  name : String
  regex : String
  format : String
  exampleStr : String
deriving DecidableEq, Repr

instance : Inhabited TimestampFormat := ⟨⟨"", "", "", ""⟩⟩

/-- `get_builtin_formats`: the ordered catalog of 17 built-in formats. -/
def get_builtin_formats : List TimestampFormat :=
  [ { name := "ISO 8601 with timezone"
      regex := "(\\d\x7b4\x7d-\\d\x7b2\x7d-\\d\x7b2\x7dT\\d\x7b2\x7d:\\d\x7b2\x7d:\\d\x7b2\x7d(?:\\.\\d+)?(?:Z|[+-]\\d\x7b2\x7d:\\d\x7b2\x7d))"
      format := "%Y-%m-%dT%H:%M:%S%.f%:z"
      exampleStr := "2025-11-13T10:00:00.123+00:00" },
    { name := "ISO 8601 without timezone"
      regex := "(\\d\x7b4\x7d-\\d\x7b2\x7d-\\d\x7b2\x7dT\\d\x7b2\x7d:\\d\x7b2\x7d:\\d\x7b2\x7d(?:\\.\\d+)?)"
      format := "%Y-%m-%dT%H:%M:%S%.f"
      exampleStr := "2025-11-13T10:00:00.123" },
    { name := "RFC 3339"
      regex := "(\\d\x7b4\x7d-\\d\x7b2\x7d-\\d\x7b2\x7d \\d\x7b2\x7d:\\d\x7b2\x7d:\\d\x7b2\x7d(?:\\.\\d+)?(?:Z|[+-]\\d\x7b2\x7d:\\d\x7b2\x7d)?)"
      format := "%Y-%m-%d %H:%M:%S%.f%:z"
      exampleStr := "2025-11-13 10:00:00.123+00:00" },
    { name := "Common log format (YYYY-MM-DD HH:MM:SS)"
      regex := "(\\d\x7b4\x7d-\\d\x7b2\x7d-\\d\x7b2\x7d \\d\x7b2\x7d:\\d\x7b2\x7d:\\d\x7b2\x7d)"
      format := "%Y-%m-%d %H:%M:%S"
      exampleStr := "2025-11-13 10:00:00" },
    { name := "Common log format with milliseconds"
      regex := "(\\d\x7b4\x7d-\\d\x7b2\x7d-\\d\x7b2\x7d \\d\x7b2\x7d:\\d\x7b2\x7d:\\d\x7b2\x7d\\.\\d\x7b3\x7d)"
      format := "%Y-%m-%d %H:%M:%S%.3f"
      exampleStr := "2025-11-13 10:00:00.123" },
    { name := "Apache/Nginx common log format"
      regex := "\\[(\\d\x7b2\x7d/[A-Za-z]\x7b3\x7d/\\d\x7b4\x7d:\\d\x7b2\x7d:\\d\x7b2\x7d:\\d\x7b2\x7d [+-]\\d\x7b4\x7d)\\]"
      format := "%d/%b/%Y:%H:%M:%S %z"
      exampleStr := "[13/Nov/2025:10:00:00 +0000]" },
    { name := "Syslog format (RFC 3164)"
      regex := "([A-Za-z]\x7b3\x7d\\s+\\d\x7b1,2\x7d \\d\x7b2\x7d:\\d\x7b2\x7d:\\d\x7b2\x7d)"
      format := "%b %d %H:%M:%S"
      exampleStr := "Nov 13 10:00:00" },
    { name := "Syslog format (RFC 5424)"
      regex := "(\\d\x7b4\x7d-\\d\x7b2\x7d-\\d\x7b2\x7dT\\d\x7b2\x7d:\\d\x7b2\x7d:\\d\x7b2\x7d(?:\\.\\d+)?(?:Z|[+-]\\d\x7b2\x7d:\\d\x7b2\x7d))"
      format := "%Y-%m-%dT%H:%M:%S%.f%:z"
      exampleStr := "2025-11-13T10:00:00.123+00:00" },
    { name := "Windows Event Log format"
      regex := "(\\d\x7b1,2\x7d/\\d\x7b1,2\x7d/\\d\x7b4\x7d \\d\x7b1,2\x7d:\\d\x7b2\x7d:\\d\x7b2\x7d (?:AM|PM))"
      format := "%m/%d/%Y %I:%M:%S %p"
      exampleStr := "11/13/2025 10:00:00 AM" },
    { name := "Unix timestamp (seconds)"
      regex := "\\b(\\d\x7b10\x7d)\\b"
      format := "%s"
      exampleStr := "1699876800" },
    { name := "Unix timestamp (milliseconds)"
      regex := "\\b(\\d\x7b13\x7d)\\b"
      format := "%s%.3f"
      exampleStr := "1699876800123" },
    { name := "US date format with time"
      regex := "(\\d\x7b1,2\x7d/\\d\x7b1,2\x7d/\\d\x7b4\x7d \\d\x7b2\x7d:\\d\x7b2\x7d:\\d\x7b2\x7d)"
      format := "%m/%d/%Y %H:%M:%S"
      exampleStr := "11/13/2025 10:00:00" },
    { name := "European date format with time"
      regex := "(\\d\x7b1,2\x7d\\.\\d\x7b1,2\x7d\\.\\d\x7b4\x7d \\d\x7b2\x7d:\\d\x7b2\x7d:\\d\x7b2\x7d)"
      format := "%d.%m.%Y %H:%M:%S"
      exampleStr := "13.11.2025 10:00:00" },
    { name := "Java log format"
      regex := "(\\d\x7b4\x7d-\\d\x7b2\x7d-\\d\x7b2\x7d \\d\x7b2\x7d:\\d\x7b2\x7d:\\d\x7b2\x7d,\\d\x7b3\x7d)"
      format := "%Y-%m-%d %H:%M:%S,%3f"
      exampleStr := "2025-11-13 10:00:00,123" },
    { name := "Python logging format"
      regex := "(\\d\x7b4\x7d-\\d\x7b2\x7d-\\d\x7b2\x7d \\d\x7b2\x7d:\\d\x7b2\x7d:\\d\x7b2\x7d,\\d\x7b3\x7d)"
      format := "%Y-%m-%d %H:%M:%S,%3f"
      exampleStr := "2025-11-13 10:00:00,123" },
    { name := "Compact format (YYYYMMDD_HHMMSS)"
      regex := "(\\d\x7b8\x7d_\\d\x7b6\x7d)"
      format := "%Y%m%d_%H%M%S"
      exampleStr := "20251113_100000" },
    { name := "Compact format with milliseconds"
      regex := "(\\d\x7b8\x7d_\\d\x7b6\x7d\\.\\d\x7b3\x7d)"
      format := "%Y%m%d_%H%M%S%.3f"
      exampleStr := "20251113_100000.123" } ]

/-! ## Configuration and log parser (`src/config.rs`, `src/parser.rs`) -/

/-- `Config` from `src/config.rs` (the decoded struct the core consumes). -/
structure Config where
  timestamp_regex : String
  timestamp_format : String
  message_patterns : List String
  is_auto_detect : Bool
deriving DecidableEq, Repr

/-- `LogParser` from `src/parser.rs`. -/
structure LogParser where
  timestamp_regex : Option RE
  timestamp_format : Option String
  pattern_regexes : List (Nat × String × RE)
  builtin_formats : List (RE × TimestampFormat)
  is_auto_detect : Bool

/-- The compilation loop over the built-in formats in `LogParser::new`. -/
def compileFormats : List TimestampFormat → Except String (List (RE × TimestampFormat))
  | [] => .ok []
  | f :: fs =>
    match compileRegex f.regex with
    | some re => (compileFormats fs).map ((re, f) :: ·)
    | none => .error ("Failed to compile built-in regex for format: " ++ f.name)

/-- The compilation loop over the configured message patterns in
`LogParser::new`, with their indices. -/
def compilePatterns : Nat → List String → Except String (List (Nat × String × RE))
  | _, [] => .ok []
  | idx, pat :: pats =>
    match compileRegex pat with
    | some re => (compilePatterns (idx + 1) pats).map ((idx, pat, re) :: ·)
    | none => .error ("Invalid message pattern regex: " ++ pat)

/-- `LogParser::new`. -/
def LogParser.new (config : Config) : Except String LogParser := do
  let (tsre, tsfmt, builtins) ←
    if config.is_auto_detect then do
      let compiled ← compileFormats get_builtin_formats
      pure ((none : Option RE), (none : Option String), compiled)
    else
      match compileRegex config.timestamp_regex with
      | some re => pure (some re, some config.timestamp_format, [])
      | none => Except.error "Invalid timestamp regex"
  let pats ← compilePatterns 0 config.message_patterns
  pure { timestamp_regex := tsre, timestamp_format := tsfmt,
         pattern_regexes := pats, builtin_formats := builtins,
         is_auto_detect := config.is_auto_detect }

/-- One iteration of the auto-detect loop in `LogParser::extract_timestamp`:
if the entry's regex matches the line and capture group 1 parses under the
entry's format, the timestamp. -/
def tryFormat (line : String) (rf : RE × TimestampFormat) : Option Int :=
  match rf.1.captures line with
  | some caps =>
    match group1String line caps with
    | some s => chronoParse rf.2.format s
    | none => none
  | none => none

/-- `LogParser::extract_timestamp`.  In auto-detect mode the built-in
formats are tried in order and the first success wins; no success is a
skip, not an error.  In explicit mode a non-matching regex is a skip, a
matching regex whose captured text fails to parse is a hard error.  The
`unwrap` calls of the source are the error case of the final `match`: they
are unreachable for parsers built by `LogParser.new`. -/
def LogParser.extract_timestamp (p : LogParser) (line : String) : Except String (Option Int) :=
  if p.is_auto_detect then
    Except.ok (p.builtin_formats.findSome? (tryFormat line))
  else
    match p.timestamp_regex, p.timestamp_format with
    | some re, some fmt =>
      match re.captures line with
      | some caps =>
        match group1String line caps with
        | some ts_str =>
          match chronoParse fmt ts_str with
          | some ts => Except.ok (some ts)
          | none => Except.error ("Failed to parse timestamp: " ++ ts_str)
        | none => Except.ok none
      | none => Except.ok none
    | _, _ => Except.error "unwrap on a missing explicit timestamp configuration"

/-- `LogParser::parse_line`: extract the timestamp, then return the first
configured pattern that matches the line, if any. -/
def LogParser.parse_line (p : LogParser) (line : String) : Except String (Option LogMatch) := do
  match ← p.extract_timestamp line with
  | none => pure none
  | some ts =>
    match p.pattern_regexes.find? (fun pr => pr.2.2.isMatch line) with
    | some pr => pure (some { pattern := pr.2.1, timestamp := ts })
    | none => pure none

/-- `LogParser::parse_reader`: fold `parse_line` over the lines in order,
collecting the matches; the first error aborts. -/
def LogParser.parse_reader (p : LogParser) : List String → Except String (List LogMatch)
  | [] => .ok []
  | l :: ls => do
    let m ← p.parse_line l
    let ms ← p.parse_reader ls
    pure (match m with | some lm => lm :: ms | none => ms)

/-! ## Interval analyzer (`src/analyzer.rs`) -/

namespace Analyzer

/-- `Analyzer::analyze`: intervals between consecutive matches.  The Rust
loop runs `i` over `0..matches.len() - 1` and pushes one interval per
adjacent pair; the early return on an empty input is kept as in the source. -/
def analyze (ms : List LogMatch) : List Interval :=
  if ms.isEmpty then
    []
  else
    (List.range (ms.length - 1)).map (fun i =>
      let fromM := ms.getD i default
      let toM := ms.getD (i + 1) default
      { from_pattern := fromM.pattern
        to_pattern := toM.pattern
        duration := toM.timestamp - fromM.timestamp })

end Analyzer

/-- `format_duration` from `src/analyzer.rs`, translated line by line.
All the `i64` values that the Rust code takes absolute values of are kept
as `Nat` (`natAbs`); the quotients and remainders are on nonnegative values
exactly as in the source. -/
def format_duration (duration : Duration) : String :=
  let total_seconds := duration.num_seconds
  let is_negative := total_seconds < 0
  let abs_seconds := total_seconds.natAbs
  let hours := abs_seconds / 3600
  let minutes := (abs_seconds % 3600) / 60
  let seconds := abs_seconds % 60
  let millis := duration.num_milliseconds.natAbs % 1000
  let sign := if is_negative then "-" else ""
  if hours > 0 then
    sign ++ toString hours ++ "h " ++ toString minutes ++ "m " ++ toString seconds ++ "s"
  else if minutes > 0 then
    sign ++ toString minutes ++ "m " ++ toString seconds ++ "s"
  else if seconds > 0 then
    sign ++ toString seconds ++ "s " ++ toString millis ++ "ms"
  else
    sign ++ toString millis ++ "ms"

/-- `Interval::format_duration`. -/
def Interval.format_duration (i : Interval) : String := LogLine.format_duration i.duration

/-- `Interval::format`: the human one-line rendering. -/
def Interval.format (i : Interval) : String :=
  i.from_pattern ++ " :::: " ++ i.format_duration ++ " ::::> " ++ i.to_pattern

/-! ## Pipeline and catalog self-consistency checks -/

/-- The core pipeline of `main.rs`: build the parser from the
configuration, parse the lines, analyze the matches. -/
def run_pipeline (config : Config) (lines : List String) : Except String (List Interval) := do
  let p ← LogParser.new config
  let ms ← p.parse_reader lines
  pure (Analyzer.analyze ms)

/-- A catalog entry's regex compiles and matches its own example. -/
def regexSelfTest (e : TimestampFormat) : Bool :=
  match compileRegex e.regex with
  | some re => re.isMatch e.exampleStr
  | none => false

/-- A catalog entry is self-consistent: its regex matches its own example
and the text of capture group 1 parses under its own format. -/
def selfTest (e : TimestampFormat) : Bool :=
  match compileRegex e.regex with
  | none => false
  | some re =>
    match re.captures e.exampleStr with
    | none => false
    | some caps =>
      match group1String e.exampleStr caps with
      | some s => (chronoParse e.format s).isSome
      | none => false

/-- The explicit-mode configuration of the end-to-end example: patterns
`START` and `END`, the standard `YYYY-MM-DD HH:MM:SS` timestamp regex, and
format `%Y-%m-%d %H:%M:%S`. -/
def config4 : Config :=
  { timestamp_regex := "(\\d\x7b4\x7d-\\d\x7b2\x7d-\\d\x7b2\x7d \\d\x7b2\x7d:\\d\x7b2\x7d:\\d\x7b2\x7d)"
    timestamp_format := "%Y-%m-%d %H:%M:%S"
    message_patterns := ["START", "END"]
    is_auto_detect := false }

/-- The two input lines of the end-to-end example. -/
def lines4 : List String := ["2025-01-01 00:00:00 START", "2025-01-01 00:00:05 END"]

/-! ## Concrete parsers used to witness the general theorems -/

/-- A one-capture-group explicit timestamp regex, `(\d+)`. -/
def re5 : RE := (compileRegex "(\\d+)").getD .eps

/-- An explicit-mode parser whose format `%Y-%m-%d` cannot parse the
digit-run its regex captures. -/
def p5 : LogParser :=
  { timestamp_regex := some re5, timestamp_format := some "%Y-%m-%d",
    pattern_regexes := [], builtin_formats := [], is_auto_detect := false }

/-- An auto-detect configuration. -/
def cfg6 : Config :=
  { timestamp_regex := "", timestamp_format := "", message_patterns := ["A", "B"],
    is_auto_detect := true }

/-- The auto-detect parser built from `cfg6` by `LogParser.new`. -/
def p6 : LogParser :=
  (LogParser.new cfg6).toOption.getD
    { timestamp_regex := none, timestamp_format := none, pattern_regexes := [],
      builtin_formats := [], is_auto_detect := true }

/-- An explicit-mode configuration with overlapping patterns `ERROR` and
`ERR`, timestamps as 10-digit Unix seconds. -/
def cfg7 : Config :=
  { timestamp_regex := "(\\d+)", timestamp_format := "%s",
    message_patterns := ["ERROR", "ERR"], is_auto_detect := false }

/-- The parser built from `cfg7` by `LogParser.new`. -/
def p7 : LogParser :=
  (LogParser.new cfg7).toOption.getD p5

/-- A timestamp regex with zero capture groups, `\d+`. -/
def re10 : RE := (compileRegex "\\d+").getD .eps

/-- An explicit-mode parser whose timestamp regex has no capture group. -/
def p10 : LogParser :=
  { timestamp_regex := some re10, timestamp_format := some "%s",
    pattern_regexes := [], builtin_formats := [], is_auto_detect := false }

/-! # Theorems -/

/-- C1: for an input of n matches, `analyze` returns exactly
`max(n − 1, 0)` intervals (`Nat` subtraction), and the i-th interval joins
match i to match i+1: same patterns, duration the signed difference of
their timestamps (match i+1 minus match i), never clamped. -/
theorem analyze_adjacent_pairs (ms : List LogMatch) :
    (Analyzer.analyze ms).length = ms.length - 1 ∧
    ∀ i : Nat, i + 1 < ms.length →
      (Analyzer.analyze ms)[i]? = some
        { from_pattern := (ms.getD i default).pattern
          to_pattern := (ms.getD (i + 1) default).pattern
          duration := (ms.getD (i + 1) default).timestamp - (ms.getD i default).timestamp } := by
  constructor
  · cases ms with
    | nil => simp [Analyzer.analyze]
    | cons a l => simp [Analyzer.analyze]
  · intro i hi
    have h : ms.isEmpty = false := by
      cases ms
      · simp at hi
      · simp
    simp only [Analyzer.analyze, h, Bool.false_eq_true, if_false, List.getElem?_map,
      List.getElem?_range (by omega : i < ms.length - 1)]
    rfl

/-- Witness for C1 at a concrete two-match input with a 7 ms gap. -/
theorem analyze_adjacent_pairs_witness :
    (Analyzer.analyze [⟨"a", 2⟩, ⟨"b", 9⟩]).length = 1 ∧
    (Analyzer.analyze [⟨"a", 2⟩, ⟨"b", 9⟩])[0]? = some ⟨"a", "b", 7⟩ :=
  ⟨(analyze_adjacent_pairs [⟨"a", 2⟩, ⟨"b", 9⟩]).1,
   (analyze_adjacent_pairs [⟨"a", 2⟩, ⟨"b", 9⟩]).2 0 (by decide)⟩

/-- C2 counterexample: the duration −500 ms is negative, yet its formatted
string is `"500ms"` with no leading `-` — the sign is computed from the
truncated second count, which is zero here. -/
theorem format_duration_neg500_unsigned :
    format_duration (-500) = "500ms" ∧ ((-500 : Int) < 0) ∧
    (format_duration (-500)).data.head? = some '5' := by
  refine ⟨by decide, by decide, by decide⟩

/-- C3 counterexample: the catalog entry at index 6, "Syslog format
(RFC 3164)", has a regex that matches its own example, but the captured
text `"Nov 13 10:00:00"` fails to parse under its own format
`%b %d %H:%M:%S` (no year can be resolved), so not every catalog entry is
self-consistent. -/
theorem builtin_syslog_example_fails_parse :
    (get_builtin_formats.getD 6 default).name = "Syslog format (RFC 3164)" ∧
    regexSelfTest (get_builtin_formats.getD 6 default) = true ∧
    chronoParse (get_builtin_formats.getD 6 default).format "Nov 13 10:00:00" = none ∧
    selfTest (get_builtin_formats.getD 6 default) = false ∧
    get_builtin_formats.all selfTest = false := by
  refine ⟨by decide, by decide, by decide, by decide, by decide⟩

/-- C3 (amended): every one of the 17 catalog entries has a regex that
matches its own example string, and for every entry except the year-less
"Syslog format (RFC 3164)" entry (index 6) the text of capture group 1 of
that match parses successfully under the entry's own format; for the
syslog entry the captured text fails to parse. -/
theorem builtin_formats_self_consistency :
    get_builtin_formats.map regexSelfTest = List.replicate 17 true ∧
    get_builtin_formats.map selfTest =
      [true, true, true, true, true, true, false, true, true,
       true, true, true, true, true, true, true, true] := by
  refine ⟨by decide, by decide⟩

/-- C4 counterexample: the end-to-end example produces one interval with
duration 5000 ms, but its human-readable rendering is `"5s 0ms"`, not
`"5s"` — the seconds branch of `format_duration` always appends the
millisecond component. -/
theorem pipeline_example_rendering_not_5s :
    run_pipeline config4 lines4
      = .ok [{ from_pattern := "START", to_pattern := "END", duration := 5000 }] ∧
    format_duration 5000 = "5s 0ms" ∧ ("5s 0ms" ≠ "5s") := by
  refine ⟨by rfl, by decide, by decide⟩

/-- C4 (amended): with patterns `START`/`END`, timestamp format
`%Y-%m-%d %H:%M:%S` and the two example lines, the pipeline produces
exactly one interval, from `START` to `END`, with duration 5000 ms, whose
human-readable rendering is `"5s 0ms"`. -/
theorem pipeline_example_result :
    run_pipeline config4 lines4
      = .ok [{ from_pattern := "START", to_pattern := "END", duration := 5000 }] ∧
    Interval.format_duration { from_pattern := "START", to_pattern := "END", duration := 5000 }
      = "5s 0ms" := by
  refine ⟨by rfl, by decide⟩

/-- `Except.ok` bound into a continuation runs the continuation. -/
theorem exceptBind_ok {ε α β : Type} (a : α) (f : α → Except ε β) :
    (Except.ok a : Except ε α) >>= f = f a := rfl

/-- `Except.error` bound into a continuation stays the same error. -/
theorem exceptBind_err {ε α β : Type} (e : ε) (f : α → Except ε β) :
    (Except.error e : Except ε α) >>= f = Except.error e := rfl

/-- `pure` on `Except` is `Except.ok`. -/
theorem exceptPure_def {ε α : Type} (a : α) : (pure a : Except ε α) = Except.ok a := rfl

/-- A run over lines containing a line on which `parse_line` fails never
returns an `ok` match sequence. -/
theorem parse_reader_err (p : LogParser) (lines : List String) (line : String)
    (hmem : line ∈ lines) (e : String) (herr : p.parse_line line = .error e) :
    ∀ ms, p.parse_reader lines ≠ .ok ms := by
  induction lines with
  | nil => simp at hmem
  | cons l ls ih =>
    intro ms h
    rcases List.mem_cons.mp hmem with rfl | hmem'
    · unfold LogParser.parse_reader at h
      rw [herr] at h
      exact Except.noConfusion h
    · unfold LogParser.parse_reader at h
      cases hpl : p.parse_line l with
      | error e' => rw [hpl] at h; exact Except.noConfusion h
      | ok m =>
        rw [hpl] at h
        cases hrest : p.parse_reader ls with
        | error e' => rw [hrest] at h; exact Except.noConfusion h
        | ok ms' => exact ih hmem' ms' hrest

/-- `findSome?` on a list split around the first success returns that
success. -/
theorem findSome?_first {α β : Type} (f : α → Option β) (pre : List α) (e : α)
    (post : List α) (ts : β) (hpre : ∀ x ∈ pre, f x = none) (he : f e = some ts) :
    (pre ++ e :: post).findSome? f = some ts := by
  induction pre with
  | nil => simp [List.findSome?_cons, he]
  | cons a l ih =>
    have ha : f a = none := hpre a (by simp)
    simp only [List.cons_append, List.findSome?_cons, ha]
    exact ih (fun x hx => hpre x (by simp [hx]))

/-- A successful `compilePatterns` run keeps the configured patterns with
consecutive indices from `idx`, in order. -/
theorem compilePatterns_enum (idx : Nat) (pats : List String)
    (l : List (Nat × String × RE)) (h : compilePatterns idx pats = .ok l) :
    l.map (fun pr => (pr.1, pr.2.1)) = pats.enumFrom idx := by
  induction pats generalizing idx l with
  | nil =>
    unfold compilePatterns at h
    cases h
    rfl
  | cons pat rest ih =>
    unfold compilePatterns at h
    cases hc : compileRegex pat with
    | none => rw [hc] at h; exact Except.noConfusion h
    | some re =>
      rw [hc] at h
      cases hr : compilePatterns (idx + 1) rest with
      | error e => rw [hr] at h; exact Except.noConfusion h
      | ok l' =>
        rw [hr] at h
        cases h
        simp [List.enumFrom, ih (idx + 1) l' hr]

/-- C5: in explicit mode, a line the timestamp regex does not match yields
no `LogMatch` and no error; a line whose regex matches but whose captured
text fails the configured parse format makes `extract_timestamp` a hard
error, and any run over lines containing such a line never returns a match
sequence. -/
theorem explicit_skip_and_abort (p : LogParser) (re : RE) (fmt : String)
    (hmode : p.is_auto_detect = false)
    (hre : p.timestamp_regex = some re) (hfmt : p.timestamp_format = some fmt) :
    (∀ line, re.captures line = none →
        p.extract_timestamp line = .ok none ∧ p.parse_line line = .ok none) ∧
    (∀ line caps s, re.captures line = some caps → group1String line caps = some s →
        chronoParse fmt s = none →
        p.extract_timestamp line = .error ("Failed to parse timestamp: " ++ s)) ∧
    (∀ lines line caps s, line ∈ lines →
        re.captures line = some caps → group1String line caps = some s →
        chronoParse fmt s = none →
        ∀ ms, p.parse_reader lines ≠ .ok ms) := by
  have part1 : ∀ line, re.captures line = none →
      p.extract_timestamp line = .ok none ∧ p.parse_line line = .ok none := by
    intro line hcaps
    have hext : p.extract_timestamp line = .ok none := by
      simp [LogParser.extract_timestamp, hmode, hre, hfmt, hcaps]
    refine ⟨hext, ?_⟩
    unfold LogParser.parse_line
    rw [hext]
    rfl
  have part2 : ∀ line caps s, re.captures line = some caps → group1String line caps = some s →
      chronoParse fmt s = none →
      p.extract_timestamp line = .error ("Failed to parse timestamp: " ++ s) := by
    intro line caps s hcaps hs hparse
    simp [LogParser.extract_timestamp, hmode, hre, hfmt, hcaps, hs, hparse]
  refine ⟨part1, part2, ?_⟩
  intro lines line caps s hmem hcaps hs hparse
  have herr : p.parse_line line = .error ("Failed to parse timestamp: " ++ s) := by
    unfold LogParser.parse_line
    rw [part2 line caps s hcaps hs hparse]
    rfl
  exact parse_reader_err p lines line hmem _ herr

/-- Witness for C5: the `(\d+)`/`%Y-%m-%d` parser skips a digit-less line
and hard-errors on a line whose captured `"99"` cannot be parsed. -/
theorem explicit_skip_and_abort_witness :
    p5.extract_timestamp "no digits here" = .ok none ∧
    p5.parse_line "no digits here" = .ok none ∧
    p5.extract_timestamp "xy 99 z" = .error ("Failed to parse timestamp: " ++ "99") ∧
    p5.parse_reader ["xy 99 z"] ≠ .ok [] := by
  have h := explicit_skip_and_abort p5 re5 "%Y-%m-%d" rfl rfl rfl
  exact ⟨(h.1 "no digits here" (by decide)).1, (h.1 "no digits here" (by decide)).2,
    h.2.1 "xy 99 z" (3, 5, some (3, 5)) "99" (by decide) (by decide) (by decide),
    h.2.2 ["xy 99 z"] "xy 99 z" (3, 5, some (3, 5)) "99" (by decide) (by decide) (by decide)
      (by decide) []⟩

/-- C6: in auto-detect mode, `extract_timestamp` returns exactly the first
catalog entry (in table order) whose regex matches the line and whose
capture group 1 parses under that entry's format — entries before the
first success all fail, entries after it do not influence the result —
and when no entry succeeds the line yields no timestamp and no error. -/
theorem auto_detect_first_success (p : LogParser) (line : String)
    (h : p.is_auto_detect = true) :
    p.extract_timestamp line = .ok (p.builtin_formats.findSome? (tryFormat line)) ∧
    (∀ pre e post ts, p.builtin_formats = pre ++ e :: post →
        (∀ e' ∈ pre, tryFormat line e' = none) → tryFormat line e = some ts →
        p.extract_timestamp line = .ok (some ts)) ∧
    ((∀ e ∈ p.builtin_formats, tryFormat line e = none) →
        p.extract_timestamp line = .ok none) := by
  have part1 : p.extract_timestamp line = .ok (p.builtin_formats.findSome? (tryFormat line)) := by
    simp [LogParser.extract_timestamp, h]
  refine ⟨part1, ?_, ?_⟩
  · intro pre e post ts hsplit hpre he
    rw [part1, hsplit, findSome?_first (tryFormat line) pre e post ts hpre he]
  · intro hall
    rw [part1, List.findSome?_eq_none_iff.mpr hall]

/-- Witness for C6: on a line carrying `2025-11-13 10:00:00`, the RFC 3339
entry matches but fails to parse (no offset), and the next entry in table
order, the common log format, supplies the timestamp. -/
theorem auto_detect_first_success_witness :
    p6.extract_timestamp "x 2025-11-13 10:00:00 y" = .ok (some 1763028000000) :=
  ((auto_detect_first_success p6 "x 2025-11-13 10:00:00 y" rfl).1).trans (by rfl)

/-- C7: `parse_line` yields at most one `LogMatch`; when a timestamp is
extracted the match carries the first (lowest-index) configured pattern
that matches the line, as the literal pattern string; a line with no
timestamp is classified as no match without consulting the patterns; and
parsers built by `LogParser.new` hold the configured patterns in
configured order with consecutive indices. -/
theorem parse_line_first_pattern (p : LogParser) (line : String) :
    (p.extract_timestamp line = .ok none → p.parse_line line = .ok none) ∧
    (∀ ts, p.extract_timestamp line = .ok (some ts) →
        p.parse_line line = .ok ((p.pattern_regexes.find? (fun pr => pr.2.2.isMatch line)).map
          (fun pr => { pattern := pr.2.1, timestamp := ts }))) ∧
    (∀ config q, LogParser.new config = .ok q →
        q.pattern_regexes.map (fun pr => (pr.1, pr.2.1)) = config.message_patterns.enum) := by
  refine ⟨?_, ?_, ?_⟩
  · intro hext
    unfold LogParser.parse_line
    rw [hext]
    rfl
  · intro ts hext
    unfold LogParser.parse_line
    rw [hext]
    cases hf : p.pattern_regexes.find? (fun pr => pr.2.2.isMatch line) with
    | none => rfl
    | some pr => rfl
  · intro config q hq
    unfold LogParser.new at hq
    by_cases hauto : config.is_auto_detect = true
    · rw [if_pos hauto] at hq
      cases hcf : compileFormats get_builtin_formats with
      | error e =>
        rw [hcf] at hq
        simp only [exceptBind_err] at hq
        exact Except.noConfusion hq
      | ok compiled =>
        rw [hcf] at hq
        simp only [exceptBind_ok, exceptPure_def] at hq
        cases hcp : compilePatterns 0 config.message_patterns with
        | error e =>
          rw [hcp] at hq
          simp only [exceptBind_err] at hq
          exact Except.noConfusion hq
        | ok pats =>
          rw [hcp] at hq
          simp only [exceptBind_ok, exceptPure_def] at hq
          cases hq
          exact compilePatterns_enum 0 config.message_patterns pats hcp
    · rw [if_neg hauto] at hq
      cases hcr : compileRegex config.timestamp_regex with
      | none =>
        rw [hcr] at hq
        simp only [exceptBind_err] at hq
        exact Except.noConfusion hq
      | some re =>
        rw [hcr] at hq
        simp only [exceptBind_ok, exceptPure_def] at hq
        cases hcp : compilePatterns 0 config.message_patterns with
        | error e =>
          rw [hcp] at hq
          simp only [exceptBind_err] at hq
          exact Except.noConfusion hq
        | ok pats =>
          rw [hcp] at hq
          simp only [exceptBind_ok, exceptPure_def] at hq
          cases hq
          exact compilePatterns_enum 0 config.message_patterns pats hcp

/-- Witness for C7: with patterns `["ERROR", "ERR"]` both matching the
line, the lowest-index pattern `ERROR` wins; a line with no timestamp
yields no match; and the built parser holds the patterns in configured
order. -/
theorem parse_line_first_pattern_witness :
    p7.parse_line "1699876800 ERROR"
      = .ok (some { pattern := "ERROR", timestamp := 1699876800000 }) ∧
    p7.parse_line "junk" = .ok none ∧
    p7.pattern_regexes.map (fun pr => (pr.1, pr.2.1)) = [(0, "ERROR"), (1, "ERR")] := by
  refine ⟨?_, ?_, ?_⟩
  · exact ((parse_line_first_pattern p7 "1699876800 ERROR").2.1 1699876800000
      (by rfl)).trans (by rfl)
  · exact (parse_line_first_pattern p7 "junk").1 (by rfl)
  · exact ((parse_line_first_pattern p7 "junk").2.2 cfg7 p7 (by rfl)).trans (by rfl)

/-- C9: whenever `parse_reader` succeeds, the returned `LogMatch` sequence
is exactly the order-preserving `filterMap` of `parse_line` over the input
lines — one match per contributing line, in line order, with nothing
reordered, duplicated or dropped — and every line was classified
successfully. -/
theorem parse_reader_order (p : LogParser) (lines : List String) (ms : List LogMatch)
    (h : p.parse_reader lines = .ok ms) :
    ms = lines.filterMap (fun l => match p.parse_line l with | .ok r => r | .error _ => none) ∧
    ∀ l ∈ lines, ∃ r, p.parse_line l = .ok r := by
  induction lines generalizing ms with
  | nil =>
    unfold LogParser.parse_reader at h
    cases h
    exact ⟨rfl, by simp⟩
  | cons l ls ih =>
    unfold LogParser.parse_reader at h
    cases hpl : p.parse_line l with
    | error e => rw [hpl] at h; exact Except.noConfusion h
    | ok m =>
      rw [hpl] at h
      simp only [exceptBind_ok] at h
      cases hrest : p.parse_reader ls with
      | error e => rw [hrest] at h; exact Except.noConfusion h
      | ok ms' =>
        rw [hrest] at h
        simp only [exceptBind_ok, exceptPure_def] at h
        have hih := ih ms' hrest
        cases m with
        | none =>
          cases h
          refine ⟨?_, ?_⟩
          · simp only [List.filterMap_cons, hpl]
            exact hih.1
          · intro l' hl'
            rcases List.mem_cons.mp hl' with rfl | hmem
            · exact ⟨none, hpl⟩
            · exact hih.2 l' hmem
        | some lm =>
          cases h
          refine ⟨?_, ?_⟩
          · simp only [List.filterMap_cons, hpl]
            simp [hih.1]
          · intro l' hl'
            rcases List.mem_cons.mp hl' with rfl | hmem
            · exact ⟨some lm, hpl⟩
            · exact hih.2 l' hmem

/-- Witness for C9: a three-line input whose middle line contributes
nothing maps to the two matches in line order. -/
theorem parse_reader_order_witness :
    [({ pattern := "ERROR", timestamp := 1699876800000 } : LogMatch),
     { pattern := "ERR", timestamp := 1699876801000 }]
      = (["1699876800 ERROR", "junk", "1699876801 ERR"].filterMap
          (fun l => match p7.parse_line l with | .ok r => r | .error _ => none)) :=
  (parse_reader_order p7 ["1699876800 ERROR", "junk", "1699876801 ERR"]
    [{ pattern := "ERROR", timestamp := 1699876800000 },
     { pattern := "ERR", timestamp := 1699876801000 }] (by rfl)).1

/-- C10 (implicit): in explicit mode, when the timestamp regex matches a
line but the match carries no capture group 1, the line is silently
skipped — no `LogMatch`, no error — instead of aborting the run. -/
theorem explicit_no_group_skips (p : LogParser) (re : RE) (fmt : String) (line : String)
    (caps : Nat × Nat × Caps)
    (hmode : p.is_auto_detect = false)
    (hre : p.timestamp_regex = some re) (hfmt : p.timestamp_format = some fmt)
    (hcaps : re.captures line = some caps) (hg : caps.2.2 = none) :
    p.extract_timestamp line = .ok none ∧ p.parse_line line = .ok none := by
  have hext : p.extract_timestamp line = .ok none := by
    simp [LogParser.extract_timestamp, hmode, hre, hfmt, hcaps, group1String, hg]
  refine ⟨hext, ?_⟩
  unfold LogParser.parse_line
  rw [hext]
  rfl

/-- Witness for C10: the group-less regex `\d+` matches the line, still
the line is skipped without error. -/
theorem explicit_no_group_skips_witness :
    p10.extract_timestamp "time 1699876800 ok" = .ok none ∧
    p10.parse_line "time 1699876800 ok" = .ok none :=
  explicit_no_group_skips p10 re10 "%s" "time 1699876800 ok" (5, 15, none)
    rfl rfl rfl (by decide) rfl

/-- `Nat.digitChar` of a value below ten is a decimal digit character. -/
theorem digitChar_isDigit (m : Nat) (h : m < 10) : (Nat.digitChar m).isDigit = true := by
  interval_cases m <;> decide

/-- `Nat.toDigitsCore` in base ten over a digit accumulator yields only
digits, and yields the empty list only from an empty accumulator. -/
theorem toDigitsCore_digits (fuel : Nat) :
    ∀ (n : Nat) (acc : List Char), (∀ c ∈ acc, c.isDigit = true) →
      (∀ c ∈ Nat.toDigitsCore 10 fuel n acc, c.isDigit = true) ∧
      (Nat.toDigitsCore 10 fuel n acc = [] → acc = []) := by
  induction fuel with
  | zero => intro n acc hacc; exact ⟨hacc, fun h => h⟩
  | succ fuel ih =>
    intro n acc hacc
    have hd : (Nat.digitChar (n % 10)).isDigit = true :=
      digitChar_isDigit _ (Nat.mod_lt _ (by omega))
    have hacc' : ∀ c ∈ Nat.digitChar (n % 10) :: acc, c.isDigit = true := by
      intro c hc
      rcases List.mem_cons.mp hc with rfl | hc'
      · exact hd
      · exact hacc c hc'
    unfold Nat.toDigitsCore
    by_cases h0 : n / 10 = 0
    · simp only [h0, if_pos rfl]
      exact ⟨hacc', by simp⟩
    · rw [if_neg h0]
      have := ih (n / 10) (Nat.digitChar (n % 10) :: acc) hacc'
      exact ⟨this.1, fun h => absurd (this.2 h) (by simp)⟩

/-- The decimal rendering of a natural number is a nonempty string of
decimal digits. -/
theorem toStringNat_digits (n : Nat) :
    (toString n).data ≠ [] ∧ ∀ c ∈ (toString n).data, c.isDigit = true := by
  have hdata : (toString n).data = Nat.toDigitsCore 10 (n + 1) n [] := rfl
  rw [hdata]
  constructor
  · unfold Nat.toDigitsCore
    by_cases h0 : n / 10 = 0
    · simp [h0]
    · rw [if_neg h0]
      intro hnil
      have hd : (Nat.digitChar (n % 10)).isDigit = true :=
        digitChar_isDigit _ (Nat.mod_lt _ (by omega))
      have := (toDigitsCore_digits n (n / 10) [Nat.digitChar (n % 10)]
        (by intro c hc; simp at hc; rw [hc]; exact hd)).2 hnil
      simp at this
  · exact (toDigitsCore_digits (n + 1) n [] (by simp)).1

/-- A character list beginning with the rendering of a natural number
begins with a decimal digit. -/
theorem head_digit_of_append (k : Nat) (rest : List Char) :
    ∃ c cs, (toString k).data ++ rest = c :: cs ∧ c.isDigit = true := by
  obtain ⟨hne, hdig⟩ := toStringNat_digits k
  cases hl : (toString k).data with
  | nil => exact absurd hl hne
  | cons c cs' => exact ⟨c, cs' ++ rest, by simp [hl], hdig c (by rw [hl]; simp)⟩

/-- The absolute value of `i64` division by 1000 (truncated toward zero)
is `Nat` division of the absolute value. -/
theorem natAbs_tdiv_1000 (d : Int) : (Int.tdiv d 1000).natAbs = d.natAbs / 1000 := by
  cases d with
  | ofNat m => rfl
  | negSucc m =>
    show (-(Int.ofNat ((m + 1) / 1000))).natAbs = (m + 1) / 1000
    rw [Int.natAbs_neg]
    rfl

/-- The truncated second count of a millisecond duration is negative
exactly when the duration is at most minus one full second. -/
theorem tdiv_1000_neg_iff (d : Int) : Int.tdiv d 1000 < 0 ↔ d ≤ -1000 := by
  cases d with
  | ofNat m =>
    show Int.ofNat (m / 1000) < 0 ↔ Int.ofNat m ≤ -1000
    simp only [Int.ofNat_eq_natCast]
    omega
  | negSucc m =>
    show -(Int.ofNat ((m + 1) / 1000)) < 0 ↔ Int.negSucc m ≤ -1000
    rw [Int.negSucc_eq]
    simp only [Int.ofNat_eq_natCast]
    omega

/-- The formatted string of a nonnegative duration begins with a decimal
digit. -/
theorem format_duration_nonneg_head (n : Nat) :
    ∃ c cs, (format_duration ((n : Nat) : Int)).data = c :: cs ∧ c.isDigit = true := by
  simp only [format_duration, Duration.num_seconds, Duration.num_milliseconds,
    natAbs_tdiv_1000, tdiv_1000_neg_iff, Int.natAbs_ofNat]
  rw [if_neg (show ¬((n : Int) ≤ -1000) by omega)]
  split_ifs <;>
    (simp only [String.data_append, List.nil_append, List.append_assoc]
     exact head_digit_of_append _ _)

/-- C2 (amended): the formatted duration is the formatted string of the
absolute value, prefixed by `-` exactly when the duration is at most
−1000 ms, i.e. when its truncated second count is negative; equivalently,
the string begins with `-` iff the duration is ≤ −1000 ms.  (Negative
durations of magnitude below one second carry no sign.) -/
theorem format_duration_sign_abs (d : Duration) :
    format_duration d = (if d ≤ -1000 then "-" else "") ++ format_duration ((d.natAbs : Int)) ∧
    ((format_duration d).data.head? = some '-' ↔ d ≤ -1000) := by
  have part1 : format_duration d
      = (if d ≤ -1000 then "-" else "") ++ format_duration ((d.natAbs : Int)) := by
    simp only [format_duration, Duration.num_seconds, Duration.num_milliseconds,
      natAbs_tdiv_1000, tdiv_1000_neg_iff, Int.natAbs_ofNat]
    rw [if_neg (show ¬((d.natAbs : Int) ≤ -1000) by omega)]
    split_ifs <;> (apply String.ext; simp [String.data_append])
  refine ⟨part1, ?_, ?_⟩
  · intro hhead
    by_contra hnot
    rw [part1, if_neg hnot] at hhead
    obtain ⟨c, cs, hdata, hdig⟩ := format_duration_nonneg_head d.natAbs
    rw [String.data_append, hdata] at hhead
    simp at hhead
    rw [hhead] at hdig
    exact absurd hdig (by decide)
  · intro hle
    rw [part1, if_pos hle, String.data_append]
    rfl

/-- C8: the documented duration-formatting examples hold exactly, and for
every sub-minute duration the rendered millisecond component is the
absolute value of the original total milliseconds modulo 1000 (not the
truncated-seconds remainder, which would lose the sign for negative
durations). -/
theorem format_duration_examples_and_millis :
    format_duration 3661000 = "1h 1m 1s" ∧
    format_duration 125000 = "2m 5s" ∧
    format_duration 1500 = "1s 500ms" ∧
    format_duration 500 = "500ms" ∧
    ∀ d : Duration, d.natAbs / 1000 < 60 →
      format_duration d = (if d ≤ -1000 then "-" else "")
        ++ (if 0 < d.natAbs / 1000 then
              toString (d.natAbs / 1000) ++ "s " ++ toString (d.natAbs % 1000) ++ "ms"
            else toString (d.natAbs % 1000) ++ "ms") := by
  refine ⟨by decide, by decide, by decide, by decide, ?_⟩
  intro d h
  simp only [format_duration, Duration.num_seconds, Duration.num_milliseconds,
    natAbs_tdiv_1000, tdiv_1000_neg_iff]
  rw [Nat.mod_eq_of_lt (show d.natAbs / 1000 < 3600 by omega),
    Nat.mod_eq_of_lt h,
    if_neg (show ¬(d.natAbs / 1000 / 3600 > 0) by omega),
    if_neg (show ¬(d.natAbs / 1000 / 60 > 0) by omega)]
  split_ifs <;> (apply String.ext; simp [String.data_append])

/-- Witness for C8 at −1500 ms: the millisecond component is
`|−1500| % 1000 = 500`, rendered `"-1s 500ms"`. -/
theorem format_duration_examples_and_millis_witness :
    ((-1500 : Int).natAbs / 1000 < 60) ∧ format_duration (-1500) = "-1s 500ms" := by
  refine ⟨by decide, ?_⟩
  exact ((format_duration_examples_and_millis).2.2.2.2 (-1500) (by decide)).trans (by decide)

end LogLine
